import Mathlib

/-!
Shallow embedding of `src/app.py`, a Flask + MySQL task-management web
application ("Tareas PRO").  Database tables become Lean lists of records,
the MySQL `TIMESTAMP DEFAULT CURRENT_TIMESTAMP` columns become a strictly
monotone `Nat` clock stored in the state, and connection availability
(`get_conn()` returning a connection or `None`) becomes an explicit
`connOk : Bool` argument to every handler.  Each Flask route handler is a
pure function from its (already form-decoded) request data and the current
application state to the next state paired with the observable response
(flash messages and redirect target).  Python string helpers used by the
handlers (`str.strip()`, `str.lower()`, slicing) are re-implemented over
character lists so that all definitions reduce in the kernel.

Not modelled (irrelevant to the stated claims): HTML rendering, the session
cookie mechanics (the current user id is passed as an argument), the
fire-and-forget webhook POSTs (no observable state effect), date
pretty-printing, and SQL referential-integrity errors (handlers are applied
to well-formed states; foreign keys are captured by explicit cascade
deletions in `tarea_eliminar`).
-/

namespace TareasApp

/-- Python `str.strip()`: drop leading and trailing whitespace. -/
def pyStrip (s : String) : String :=
  String.mk (((s.data.dropWhile Char.isWhitespace).reverse.dropWhile Char.isWhitespace).reverse)

/-- Python `str.lower()` (ASCII case folding, which is all the app uses). -/
def pyLower (s : String) : String :=
  String.mk (s.data.map Char.toLower)

/-- Python `s[:n]` on a string. -/
def pyTake (n : Nat) (s : String) : String :=
  String.mk (s.data.take n)

/-- Row of the `usuarios` table. -/
structure Usuario where
  id : Nat
  nombre : String
  email : String
  password_hash : String
  rol : String
  activo : Bool
deriving Repr, DecidableEq

/-- Row of the `tareas` table.  `fecha_creacion` is the value of the state
clock at insertion time (standing for `CURRENT_TIMESTAMP`). -/
structure Tarea where
  id : Nat
  titulo : String
  descripcion : Option String
  estado : String
  prioridad : String
  fecha_creacion : Nat
  fecha_vencimiento : Option String
  creada_por : Option Nat
  asignada_a : Option Nat
deriving Repr, DecidableEq

/-- Row of the `tags` table. -/
structure Etiqueta where
  id : Nat
  nombre : String
deriving Repr, DecidableEq

/-- Row of the `comentarios` table. -/
structure Comentario where
  id : Nat
  tarea_id : Nat
  usuario_id : Option Nat
  contenido : String
  fecha : Nat
deriving Repr, DecidableEq

/-- Row of the `adjuntos` table. -/
structure Adjunto where
  id : Nat
  tarea_id : Nat
  nombre_archivo : String
  ruta : String
  tamano : Nat
  fecha : Nat
deriving Repr, DecidableEq

/-- Row of the `auditoria` table.  `detalle` keeps the dict passed to
`json.dumps` as an association list. -/
structure Auditoria where
  usuario_id : Option Nat
  accion : String
  entidad : String
  entidad_id : Option Nat
  detalle : List (String × String)
  fecha : Nat
deriving Repr, DecidableEq

/-- The relational state created by `crear_esquema_completo`, plus the
auto-increment counters and the timestamp clock. -/
structure DB where
  usuarios : List Usuario
  tareas : List Tarea
  tags : List Etiqueta
  tarea_tags : List (Nat × Nat)
  comentarios : List Comentario
  adjuntos : List Adjunto
  auditoria : List Auditoria
  nextTareaId : Nat
  nextTagId : Nat
  nextComentarioId : Nat
  nextAdjuntoId : Nat
  clock : Nat
deriving Repr, DecidableEq

/-- Full application state: the database plus the files present in the
upload directory (`UPLOAD_FOLDER`), each as path with byte size. -/
structure AppState where
  db : DB
  uploads : List (String × Nat)
deriving Repr, DecidableEq

/-- Observable response of a page handler: the flashed messages
(message, category) and the redirect target. -/
structure HResp where
  flashes : List (String × String)
  redirectTo : String
deriving Repr, DecidableEq

/-- Redirect target of `url_for("tarea_detalle", id=id)`. -/
def detalleUrl (id : Nat) : String := "tarea/" ++ toString id

/-- `clamp(n, a, b)` from app.py: `max(a, min(b, n))`. -/
def clamp (n a b : Int) : Int := max a (min b n)

/-- `paginate_params()`: clamped page, clamped page size, and offset. -/
def paginate_params (page perPage : Int) : Int × Int × Int :=
  let p := clamp page 1 10000
  let pp := clamp perPage 5 100
  (p, pp, (p - 1) * pp)

/-- Characters strictly after the last `'.'` of the list, or `none` when no
dot occurs (`"." not in filename`). -/
def extDespuesDePunto : List Char → Option (List Char)
  | [] => none
  | c :: cs =>
    match extDespuesDePunto cs with
    | some e => some e
    | none => if c == '.' then some cs else none

/-- `allowed_file(filename)`: requires a dot, then compares the lowercased
extension (`filename.rsplit(".", 1)[1].lower()`) against the configured
allow-list `ALLOWED_EXT`. -/
def allowed_file (allowedExt : List String) (filename : String) : Bool :=
  match extDespuesDePunto filename.data with
  | none => false
  | some e => allowedExt.contains (pyLower (String.mk e))

/-- `api_auth_ok()`: the check is disabled when no API key is configured,
otherwise the `X-API-Key` header must equal the configured key. -/
def api_auth_ok (apiKey : String) (header : Option String) : Bool :=
  (apiKey == "") ||
    (match header with
     | some h => h == apiKey
     | none => false)

/-- Bool test for one string being a prefix of another (as char lists). -/
def esPrefijoDe : List Char → List Char → Bool
  | [], _ => true
  | _ :: _, [] => false
  | a :: as, b :: bs => a == b && esPrefijoDe as bs

/-- Bool substring occurrence test, modelling SQL `LIKE '%q%'`. -/
def apareceEn (needle : List Char) : List Char → Bool
  | [] => esPrefijoDe needle []
  | b :: bs => esPrefijoDe needle (b :: bs) || apareceEn needle bs

/-- `q` occurs as a substring of `s`. -/
def esSubcadena (q s : String) : Bool := apareceEn q.data s.data

/-- Conjunctive task filter built by `index` (and, with `asignadaArg = none`,
by `api_tareas`): each criterion applies only when the query argument is
non-empty, and free text matches title or description. -/
def matchesFiltros (estadoArg prioridadArg : String) (asignadaArg : Option Nat)
    (qArg : String) (t : Tarea) : Bool :=
  (estadoArg == "" || t.estado == estadoArg) &&
  (prioridadArg == "" || t.prioridad == prioridadArg) &&
  (match asignadaArg with
   | none => true
   | some a =>
     match t.asignada_a with
     | some b => b == a
     | none => false) &&
  (qArg == "" || esSubcadena qArg t.titulo ||
    (match t.descripcion with
     | some d => esSubcadena qArg d
     | none => false))

/-- Insert a task into a list kept in decreasing `fecha_creacion` order. -/
def insertDesc (t : Tarea) : List Tarea → List Tarea
  | [] => [t]
  | u :: us =>
    if u.fecha_creacion ≤ t.fecha_creacion then t :: u :: us
    else u :: insertDesc t us

/-- `ORDER BY fecha_creacion DESC` as an insertion sort. -/
def ordenarDesc (l : List Tarea) : List Tarea := l.foldr insertDesc []

/-- `audit(...)`: best-effort insert into `auditoria` using its own pool
connection; with no connection available it silently does nothing. -/
def audit (connOk : Bool) (uid : Option Nat) (accion entidad : String)
    (eid : Option Nat) (detalle : List (String × String)) (db : DB) : DB :=
  if connOk then
    { db with
      auditoria := db.auditoria ++ [⟨uid, accion, entidad, eid, detalle, db.clock⟩],
      clock := db.clock + 1 }
  else db

/-- The status aggregates computed for the dashboard. -/
structure Stats where
  pend : Nat
  prog : Nat
  comp : Nat
  crit : Nat
  alta : Nat
deriving Repr, DecidableEq

/-- What the `index` handler passes to the template. -/
structure IndexResult where
  ok : Bool
  tareas : List Tarea
  total : Nat
  page : Int
  per_page : Int
  stats : Stats
deriving Repr, DecidableEq

/-- The `index` route: dashboard stats, conjunctive filters, total count,
and one page of tasks ordered by creation time descending. -/
def index (connOk : Bool) (estadoArg qArg prioridadArg : String)
    (asignadaArg : Option Nat) (page perPage : Int) (st : AppState) : IndexResult :=
  let ppp := paginate_params page perPage
  if connOk then
    let filtered := st.db.tareas.filter (matchesFiltros estadoArg prioridadArg asignadaArg qArg)
    let stats : Stats :=
      ⟨st.db.tareas.countP (fun t => t.estado == "pendiente"),
       st.db.tareas.countP (fun t => t.estado == "en_progreso"),
       st.db.tareas.countP (fun t => t.estado == "completada"),
       st.db.tareas.countP (fun t => t.prioridad == "critica"),
       st.db.tareas.countP (fun t => t.prioridad == "alta")⟩
    { ok := true,
      tareas := ((ordenarDesc filtered).drop ppp.2.2.toNat).take ppp.2.1.toNat,
      total := filtered.length,
      page := ppp.1, per_page := ppp.2.1, stats := stats }
  else
    { ok := false, tareas := [], total := 0,
      page := ppp.1, per_page := ppp.2.1, stats := ⟨0, 0, 0, 0, 0⟩ }

/-- `tarea_nueva`: create a task.  The title is stripped and required; the
schema supplies `estado = 'pendiente'` and the form default supplies
`prioridad = 'media'`. -/
def tarea_nueva (connOk : Bool) (uid : Option Nat)
    (tituloRaw descripcionRaw vencRaw prioridadRaw : Option String)
    (asignadaRaw : Option Nat) (st : AppState) : AppState × HResp :=
  let titulo := pyStrip (tituloRaw.getD "")
  let d := pyStrip (descripcionRaw.getD "")
  let descripcion := if d == "" then none else some d
  let fecha_vencimiento :=
    match vencRaw with
    | some s => if s == "" then none else some s
    | none => none
  let prioridad := prioridadRaw.getD "media"
  if titulo == "" then
    (st, ⟨[("El título es obligatorio", "error")], "index"⟩)
  else if !connOk then
    (st, ⟨[("Error de conexión", "error")], "index"⟩)
  else
    let t : Tarea :=
      ⟨st.db.nextTareaId, titulo, descripcion, "pendiente", prioridad,
       st.db.clock, fecha_vencimiento, uid, asignadaRaw⟩
    let db1 :=
      { st.db with
        tareas := st.db.tareas ++ [t],
        nextTareaId := st.db.nextTareaId + 1,
        clock := st.db.clock + 1 }
    let db2 := audit connOk uid "create" "tarea" (some t.id) [("titulo", titulo)] db1
    ({ st with db := db2 }, ⟨[("✅ Tarea creada", "success")], "index"⟩)

/-- The status enum accepted by `tarea_editar` and `tarea_cambiar_estado`. -/
def estadoValido (e : String) : Bool :=
  e == "pendiente" || e == "en_progreso" || e == "completada"

/-- `tarea_editar`: wholesale update of title/description/status/priority/
due-date/assignee.  Only the status is validated. -/
def tarea_editar (connOk : Bool) (uid : Option Nat) (id : Nat)
    (tituloRaw descripcionRaw estadoRaw prioridadRaw vencRaw : Option String)
    (asignadaRaw : Option Nat) (st : AppState) : AppState × HResp :=
  let titulo := pyStrip (tituloRaw.getD "")
  let d := pyStrip (descripcionRaw.getD "")
  let descripcion := if d == "" then none else some d
  let estado := estadoRaw.getD "pendiente"
  let prioridad := prioridadRaw.getD "media"
  let fecha_vencimiento :=
    match vencRaw with
    | some s => if s == "" then none else some s
    | none => none
  if !(estadoValido estado) then
    (st, ⟨[("Estado inválido", "error")], detalleUrl id⟩)
  else if !connOk then
    (st, ⟨[("Error de conexión", "error")], detalleUrl id⟩)
  else
    let db1 :=
      { st.db with
        tareas := st.db.tareas.map (fun t =>
          if t.id == id then
            { t with
              titulo := titulo, descripcion := descripcion, estado := estado,
              prioridad := prioridad, fecha_vencimiento := fecha_vencimiento,
              asignada_a := asignadaRaw }
          else t) }
    let db2 := audit connOk uid "update" "tarea" (some id)
      [("estado", estado), ("prioridad", prioridad)] db1
    ({ st with db := db2 }, ⟨[("✅ Cambios guardados", "success")], detalleUrl id⟩)

/-- `tarea_cambiar_estado`: narrow endpoint updating only the status. -/
def tarea_cambiar_estado (connOk : Bool) (uid : Option Nat) (id : Nat)
    (estado : String) (st : AppState) : AppState × HResp :=
  if !(estadoValido estado) then
    (st, ⟨[("Estado inválido", "error")], detalleUrl id⟩)
  else if !connOk then
    (st, ⟨[("Error de conexión", "error")], detalleUrl id⟩)
  else
    let db1 :=
      { st.db with
        tareas := st.db.tareas.map (fun t =>
          if t.id == id then { t with estado := estado } else t) }
    let db2 := audit connOk uid "status" "tarea" (some id) [("estado", estado)] db1
    ({ st with db := db2 }, ⟨[("✅ Estado actualizado", "success")], detalleUrl id⟩)

/-- `tarea_eliminar`: deletes the task; the `ON DELETE CASCADE` foreign keys
remove its tag links, comments and attachment records. -/
def tarea_eliminar (connOk : Bool) (uid : Option Nat) (id : Nat)
    (st : AppState) : AppState × HResp :=
  if !connOk then
    (st, ⟨[("Error de conexión", "error")], "index"⟩)
  else
    let db1 :=
      { st.db with
        tareas := st.db.tareas.filter (fun t => !(t.id == id)),
        tarea_tags := st.db.tarea_tags.filter (fun p => !(p.1 == id)),
        comentarios := st.db.comentarios.filter (fun c => !(c.tarea_id == id)),
        adjuntos := st.db.adjuntos.filter (fun a => !(a.tarea_id == id)) }
    let db2 := audit connOk uid "delete" "tarea" (some id) [] db1
    ({ st with db := db2 }, ⟨[("✅ Tarea eliminada", "success")], "index"⟩)

/-- `tarea_agregar_tag`: strip+lowercase the name, find or create the tag,
then `INSERT IGNORE` the link row.  The insert is silently skipped when the
composite primary key `(tarea_id, tag_id)` already exists or when the
`tarea_id` foreign key (`tarea_tags` references `tareas(id)`) has no
matching task, so a link is written only for an existing, not yet linked
task. -/
def tarea_agregar_tag (connOk : Bool) (uid : Option Nat) (id : Nat)
    (tagRaw : Option String) (st : AppState) : AppState × HResp :=
  let nombre := pyLower (pyStrip (tagRaw.getD ""))
  if nombre == "" then (st, ⟨[], detalleUrl id⟩)
  else if !connOk then (st, ⟨[], detalleUrl id⟩)
  else
    let found := st.db.tags.find? (fun tg => tg.nombre == nombre)
    let tagId :=
      match found with
      | some tg => tg.id
      | none => st.db.nextTagId
    let db1 :=
      match found with
      | some _ => st.db
      | none =>
        { st.db with
          tags := st.db.tags ++ [⟨st.db.nextTagId, nombre⟩],
          nextTagId := st.db.nextTagId + 1 }
    let db2 :=
      if db1.tareas.any (fun t => t.id == id) && !(db1.tarea_tags.contains (id, tagId)) then
        { db1 with tarea_tags := db1.tarea_tags ++ [(id, tagId)] }
      else db1
    let db3 := audit connOk uid "update" "tarea" (some id) [("tag_add", nombre)] db2
    ({ st with db := db3 }, ⟨[("✅ Tag agregado", "success")], detalleUrl id⟩)

/-- `tarea_quitar_tag`: delete the link row; deleting a missing link is a
no-op. -/
def tarea_quitar_tag (connOk : Bool) (uid : Option Nat) (id tag_id : Nat)
    (st : AppState) : AppState × HResp :=
  if !connOk then (st, ⟨[], detalleUrl id⟩)
  else
    let db1 :=
      { st.db with
        tarea_tags := st.db.tarea_tags.filter (fun p => !(p.1 == id && p.2 == tag_id)) }
    let db2 := audit connOk uid "update" "tarea" (some id)
      [("tag_remove", toString tag_id)] db1
    ({ st with db := db2 }, ⟨[("✅ Tag quitado", "success")], detalleUrl id⟩)

/-- `tarea_comentar`: append-only comment with server-assigned timestamp. -/
def tarea_comentar (connOk : Bool) (uid : Option Nat) (id : Nat)
    (contenidoRaw : Option String) (st : AppState) : AppState × HResp :=
  let contenido := pyStrip (contenidoRaw.getD "")
  if contenido == "" then
    (st, ⟨[("Escribe un comentario", "error")], detalleUrl id⟩)
  else if !connOk then
    (st, ⟨[("Error de conexión", "error")], detalleUrl id⟩)
  else
    let c : Comentario := ⟨st.db.nextComentarioId, id, uid, contenido, st.db.clock⟩
    let db1 :=
      { st.db with
        comentarios := st.db.comentarios ++ [c],
        nextComentarioId := st.db.nextComentarioId + 1,
        clock := st.db.clock + 1 }
    let db2 := audit connOk uid "comment" "tarea" (some id)
      [("contenido", pyTake 120 contenido)] db1
    ({ st with db := db2 }, ⟨[("💬 Comentario agregado", "success")], detalleUrl id⟩)

/-- `file.save(ruta)`: write (or overwrite) a file in the upload folder. -/
def saveFile (ruta : String) (size : Nat) (ups : List (String × Nat)) : List (String × Nat) :=
  if ups.any (fun p => p.1 == ruta) then
    ups.map (fun p => if p.1 == ruta then (ruta, size) else p)
  else ups ++ [(ruta, size)]

/-- `tarea_adjuntar`: reject a missing/empty filename, sanitize it with
`secure_filename` (passed in abstractly as `sf`), reject a disallowed
extension, then save the file to disk and only afterwards acquire a pool
connection to insert the `adjuntos` row. -/
def tarea_adjuntar (connOk : Bool) (sf : String → String) (allowedExt : List String)
    (uploadFolder : String) (uid : Option Nat) (id : Nat)
    (file : Option (String × Nat)) (st : AppState) : AppState × HResp :=
  match file with
  | none => (st, ⟨[("Selecciona un archivo", "error")], detalleUrl id⟩)
  | some (fname, size) =>
    if fname == "" then
      (st, ⟨[("Selecciona un archivo", "error")], detalleUrl id⟩)
    else
      let filename := sf fname
      if !(allowed_file allowedExt filename) then
        (st, ⟨[("Tipo de archivo no permitido", "error")], detalleUrl id⟩)
      else
        let ruta := uploadFolder ++ "/" ++ toString id ++ "_" ++ filename
        let st1 := { st with uploads := saveFile ruta size st.uploads }
        if !connOk then
          (st1, ⟨[("Error de conexión", "error")], detalleUrl id⟩)
        else
          let a : Adjunto := ⟨st1.db.nextAdjuntoId, id, filename, ruta, size, st1.db.clock⟩
          let db1 :=
            { st1.db with
              adjuntos := st1.db.adjuntos ++ [a],
              nextAdjuntoId := st1.db.nextAdjuntoId + 1,
              clock := st1.db.clock + 1 }
          let db2 := audit connOk uid "attach" "tarea" (some id)
            [("archivo", filename)] db1
          ({ st1 with db := db2 }, ⟨[("📎 Archivo adjuntado", "success")], detalleUrl id⟩)

/-- Response of the REST listing endpoint. -/
inductive ApiResp where
  | unauthorized
  | jsonArr (rows : List Tarea)
deriving Repr, DecidableEq

/-- HTTP status code of an `ApiResp`. -/
def ApiResp.status : ApiResp → Nat
  | .unauthorized => 401
  | .jsonArr _ => 200

/-- `GET /api/tareas`: API-key gate, then the same filter/pagination
semantics as the web listing; with no pool connection it returns `[]`. -/
def api_tareas (apiKey : String) (header : Option String) (connOk : Bool)
    (qArg estadoArg prioridadArg : String) (page perPage : Int) (db : DB) : ApiResp :=
  if !(api_auth_ok apiKey header) then .unauthorized
  else
    let ppp := paginate_params page perPage
    if !connOk then .jsonArr []
    else
      let filtered := db.tareas.filter (matchesFiltros estadoArg prioridadArg none qArg)
      .jsonArr (((ordenarDesc filtered).drop ppp.2.2.toNat).take ppp.2.1.toNat)

/-- Observable outcome of the `login` handler: flashes, redirect target,
and the user written into the session (if any). -/
structure LoginResp where
  flashes : List (String × String)
  redirectTo : String
  sessionUser : Option Usuario
deriving Repr, DecidableEq

/-- The response on invalid credentials, identical for unknown email and
wrong password. -/
def invalidLoginResp : LoginResp :=
  ⟨[("Credenciales inválidas", "error")], "login", none⟩

/-- `login` (POST): normalize the email, look up an active user, check the
password hash (`check_password_hash` passed in abstractly), and either
flash invalid credentials or establish the session and redirect. -/
def login (checkHash : String → String → Bool) (connOk : Bool) (db : DB)
    (emailRaw password : String) (nextArg : Option String) : LoginResp :=
  let email := pyLower (pyStrip emailRaw)
  if !connOk then ⟨[("Error de conexión", "error")], "login", none⟩
  else
    match db.usuarios.find? (fun u => u.email == email && u.activo) with
    | none => invalidLoginResp
    | some u =>
      if !(checkHash u.password_hash password) then invalidLoginResp
      else ⟨[], nextArg.getD "index", some u⟩

/-! Concrete fixture states used by the witness and counterexample
theorems below. -/

/-- Freshly bootstrapped state: empty tables, counters at 1, clock at 0. -/
def estadoVacio : AppState := ⟨⟨[], [], [], [], [], [], [], 1, 1, 1, 1, 0⟩, []⟩

/-- A single stored task with (non-empty) title "A". -/
def tareaA : Tarea := ⟨1, "A", none, "pendiente", "media", 0, none, none, none⟩

/-- State holding exactly the task `tareaA`. -/
def estadoConA : AppState := ⟨⟨[], [tareaA], [], [], [], [], [], 2, 1, 1, 1, 1⟩, []⟩

/-- The seeded administrator account, with an opaque stored hash. -/
def usuarioAdmin : Usuario := ⟨1, "Admin", "admin@example.com", "hash1", "admin", true⟩

/-- Database holding only the administrator account. -/
def dbConAdmin : DB := ⟨[usuarioAdmin], [], [], [], [], [], [], 2, 1, 1, 1, 0⟩

/-- The i-th of twelve homogeneous tasks. -/
def tareaN (i : Nat) : Tarea := ⟨i, "t", none, "pendiente", "media", i, none, none, none⟩

/-- State holding twelve tasks, for the pagination example. -/
def estadoDoce : AppState :=
  ⟨⟨[], (List.range 12).map tareaN, [], [], [], [], [], 13, 1, 1, 1, 12⟩, []⟩

/-! Theorems settling the claims. -/

/-- The audit write never touches the `tareas` table. -/
theorem audit_tareas (connOk : Bool) (uid : Option Nat) (accion entidad : String)
    (eid : Option Nat) (detalle : List (String × String)) (db : DB) :
    (audit connOk uid accion entidad eid detalle db).tareas = db.tareas := by
  unfold audit
  split <;> rfl

/-- The audit write never touches the `tags` table. -/
theorem audit_tags (connOk : Bool) (uid : Option Nat) (accion entidad : String)
    (eid : Option Nat) (detalle : List (String × String)) (db : DB) :
    (audit connOk uid accion entidad eid detalle db).tags = db.tags := by
  unfold audit
  split <;> rfl

/-- The audit write never touches the `tarea_tags` table. -/
theorem audit_tarea_tags (connOk : Bool) (uid : Option Nat) (accion entidad : String)
    (eid : Option Nat) (detalle : List (String × String)) (db : DB) :
    (audit connOk uid accion entidad eid detalle db).tarea_tags = db.tarea_tags := by
  unfold audit
  split <;> rfl

/-- Claim C3: for every task id and every status string outside
{pendiente, en_progreso, completada}, both the status-change endpoint and
the wholesale update reject the request before any write, leaving the
whole state (in particular every stored status) unchanged. -/
theorem estado_invalido_rechazado (connOk : Bool) (uid : Option Nat) (id : Nat)
    (estado : String) (tituloRaw descripcionRaw prioridadRaw vencRaw : Option String)
    (asignadaRaw : Option Nat) (st : AppState)
    (h : estadoValido estado = false) :
    (tarea_cambiar_estado connOk uid id estado st).1 = st ∧
    (tarea_editar connOk uid id tituloRaw descripcionRaw (some estado)
        prioridadRaw vencRaw asignadaRaw st).1 = st := by
  constructor
  · simp [tarea_cambiar_estado, h]
  · simp [tarea_editar, h]

/-- Claim C3 witness: the unknown status "cancelada" is rejected by both
endpoints on a concrete one-task state. -/
theorem estado_invalido_rechazado_witness :
    (tarea_cambiar_estado true none 1 "cancelada" estadoConA).1 = estadoConA ∧
    (tarea_editar true none 1 (some "B") none (some "cancelada")
        none none none estadoConA).1 = estadoConA :=
  estado_invalido_rechazado true none 1 "cancelada" (some "B") none none none
    none estadoConA (by decide)

/-- Task deletion only removes rows from `tareas`: every surviving task was
already stored. -/
theorem eliminar_tareas_subconjunto (connOk : Bool) (uid : Option Nat) (id : Nat)
    (st : AppState) :
    ∀ t ∈ (tarea_eliminar connOk uid id st).1.db.tareas, t ∈ st.db.tareas := by
  intro t ht
  cases connOk with
  | false => exact ht
  | true =>
    simp [tarea_eliminar, audit_tareas] at ht
    exact ht.1

/-- Tag adding never touches the `tareas` table. -/
theorem agregar_tag_tareas (connOk : Bool) (uid : Option Nat) (id : Nat)
    (tagRaw : Option String) (st : AppState) :
    (tarea_agregar_tag connOk uid id tagRaw st).1.db.tareas = st.db.tareas := by
  simp only [tarea_agregar_tag]
  split
  · rfl
  · split
    · rfl
    · split
      · split <;> simp [audit_tareas]
      · split <;> simp [audit_tareas]

/-- Tag removal never touches the `tareas` table. -/
theorem quitar_tag_tareas (connOk : Bool) (uid : Option Nat) (id tag_id : Nat)
    (st : AppState) :
    (tarea_quitar_tag connOk uid id tag_id st).1.db.tareas = st.db.tareas := by
  simp only [tarea_quitar_tag]
  split
  · rfl
  · simp [audit_tareas]

/-- Commenting never touches the `tareas` table. -/
theorem comentar_tareas (connOk : Bool) (uid : Option Nat) (id : Nat)
    (contenidoRaw : Option String) (st : AppState) :
    (tarea_comentar connOk uid id contenidoRaw st).1.db.tareas = st.db.tareas := by
  simp only [tarea_comentar]
  split
  · rfl
  · split
    · rfl
    · simp [audit_tareas]

/-- Attaching a file never touches the `tareas` table. -/
theorem adjuntar_tareas (connOk : Bool) (sf : String → String)
    (allowedExt : List String) (uploadFolder : String) (uid : Option Nat)
    (id : Nat) (file : Option (String × Nat)) (st : AppState) :
    (tarea_adjuntar connOk sf allowedExt uploadFolder uid id file st).1.db.tareas
      = st.db.tareas := by
  rcases file with _ | ⟨fname, size⟩
  · rfl
  · simp only [tarea_adjuntar]
    split
    · rfl
    · split
      · rfl
      · split
        · rfl
        · simp [audit_tareas]

/-- Claim C1 counterexample: starting from a state whose only task has the
non-empty title "A", the wholesale update endpoint accepts an empty
submitted title and stores it, breaking the non-empty-title invariant. -/
theorem editar_titulo_vacio_contraejemplo :
    estadoConA.db.tareas.map Tarea.titulo = ["A"] ∧
    ((tarea_editar true none 1 (some "") none (some "pendiente") none none none
        estadoConA).1.db.tareas.map Tarea.titulo) = [""] := by
  constructor
  · rfl
  · decide

/-- Claim C1 (amended): task creation rejects an empty (stripped) title and
leaves the state unchanged, and every mutating operation except the
wholesale update — creation, status change, deletion, tag add and remove,
comment, attachment upload — preserves the invariant that every stored
title is non-empty; the wholesale update endpoint performs no title
validation and stores the submitted stripped title verbatim in the
targeted task, so it alone can store an empty title. -/
theorem titulo_no_vacio_excepto_editar (connOk : Bool) (uid : Option Nat)
    (tituloRaw descripcionRaw vencRaw prioridadRaw : Option String)
    (asignadaRaw : Option Nat) (st : AppState)
    (hInv : ∀ t ∈ st.db.tareas, t.titulo ≠ "") :
    (pyStrip (tituloRaw.getD "") = "" →
      (tarea_nueva connOk uid tituloRaw descripcionRaw vencRaw prioridadRaw
        asignadaRaw st).1 = st) ∧
    (∀ t ∈ (tarea_nueva connOk uid tituloRaw descripcionRaw vencRaw prioridadRaw
        asignadaRaw st).1.db.tareas, t.titulo ≠ "") ∧
    (∀ id estado, ∀ t ∈ (tarea_cambiar_estado connOk uid id estado st).1.db.tareas,
      t.titulo ≠ "") ∧
    (∀ id, ∀ t ∈ (tarea_eliminar connOk uid id st).1.db.tareas, t.titulo ≠ "") ∧
    (∀ id tagRaw, ∀ t ∈ (tarea_agregar_tag connOk uid id tagRaw st).1.db.tareas,
      t.titulo ≠ "") ∧
    (∀ id tag_id, ∀ t ∈ (tarea_quitar_tag connOk uid id tag_id st).1.db.tareas,
      t.titulo ≠ "") ∧
    (∀ id contenidoRaw,
      ∀ t ∈ (tarea_comentar connOk uid id contenidoRaw st).1.db.tareas,
      t.titulo ≠ "") ∧
    (∀ (sf : String → String) (allowedExt : List String) (uploadFolder : String)
      (id : Nat) (file : Option (String × Nat)),
      ∀ t ∈ (tarea_adjuntar connOk sf allowedExt uploadFolder uid id file
          st).1.db.tareas,
      t.titulo ≠ "") ∧
    (∀ id estadoRaw, estadoValido (Option.getD estadoRaw "pendiente") = true →
      connOk = true →
      ∀ t ∈ (tarea_editar connOk uid id tituloRaw descripcionRaw estadoRaw
          prioridadRaw vencRaw asignadaRaw st).1.db.tareas,
        t.id = id → t.titulo = pyStrip (tituloRaw.getD "")) := by
  refine ⟨?_, ?_, ?_, ?_, ?_, ?_, ?_, ?_, ?_⟩
  · intro h0
    simp [tarea_nueva, h0]
  · intro t ht
    by_cases h0 : pyStrip (tituloRaw.getD "") = ""
    · simp [tarea_nueva, h0] at ht
      exact hInv t ht
    · cases connOk with
      | false =>
        simp [tarea_nueva, beq_iff_eq, h0] at ht
        exact hInv t ht
      | true =>
        simp [tarea_nueva, beq_iff_eq, h0, audit] at ht
        rcases ht with ht | rfl
        · exact hInv t ht
        · simpa using h0
  · intro id estado t ht
    rcases Bool.eq_false_or_eq_true (estadoValido estado) with hv | hv
    · cases connOk with
      | false =>
        simp [tarea_cambiar_estado, hv] at ht
        exact hInv t ht
      | true =>
        simp [tarea_cambiar_estado, hv, audit, List.mem_map] at ht
        obtain ⟨u, hu, hut⟩ := ht
        rw [← hut]
        by_cases hid : u.id = id
        · simp only [hid, beq_self_eq_true, if_true]
          exact hInv u hu
        · simp only [beq_iff_eq, hid, if_false]
          exact hInv u hu
    · simp [tarea_cambiar_estado, hv] at ht
      exact hInv t ht
  · intro id t ht
    exact hInv t (eliminar_tareas_subconjunto connOk uid id st t ht)
  · intro id tagRaw t ht
    rw [agregar_tag_tareas] at ht
    exact hInv t ht
  · intro id tag_id t ht
    rw [quitar_tag_tareas] at ht
    exact hInv t ht
  · intro id contenidoRaw t ht
    rw [comentar_tareas] at ht
    exact hInv t ht
  · intro sf allowedExt uploadFolder id file t ht
    rw [adjuntar_tareas] at ht
    exact hInv t ht
  · intro id estadoRaw hv hc t ht htid
    subst hc
    simp [tarea_editar, hv, audit, List.mem_map] at ht
    obtain ⟨u, hu, hut⟩ := ht
    by_cases hid : u.id = id
    · rw [← hut]
      simp [hid, beq_iff_eq]
    · rw [← hut] at htid
      simp [hid, beq_iff_eq] at htid

/-- Claim C1 witness: the amended statement instantiated on the one-task
state with title "A" and the submitted title "B". -/
theorem titulo_no_vacio_excepto_editar_witness :
    (pyStrip ((some "B").getD "") = "" →
      (tarea_nueva true none (some "B") none none none none estadoConA).1 = estadoConA) ∧
    (∀ t ∈ (tarea_nueva true none (some "B") none none none none
        estadoConA).1.db.tareas, t.titulo ≠ "") ∧
    (∀ id estado, ∀ t ∈ (tarea_cambiar_estado true none id estado
        estadoConA).1.db.tareas, t.titulo ≠ "") ∧
    (∀ id, ∀ t ∈ (tarea_eliminar true none id estadoConA).1.db.tareas,
      t.titulo ≠ "") ∧
    (∀ id tagRaw, ∀ t ∈ (tarea_agregar_tag true none id tagRaw
        estadoConA).1.db.tareas, t.titulo ≠ "") ∧
    (∀ id tag_id, ∀ t ∈ (tarea_quitar_tag true none id tag_id
        estadoConA).1.db.tareas, t.titulo ≠ "") ∧
    (∀ id contenidoRaw, ∀ t ∈ (tarea_comentar true none id contenidoRaw
        estadoConA).1.db.tareas, t.titulo ≠ "") ∧
    (∀ (sf : String → String) (allowedExt : List String) (uploadFolder : String)
      (id : Nat) (file : Option (String × Nat)),
      ∀ t ∈ (tarea_adjuntar true sf allowedExt uploadFolder none id file
          estadoConA).1.db.tareas,
      t.titulo ≠ "") ∧
    (∀ id estadoRaw, estadoValido (Option.getD estadoRaw "pendiente") = true →
      true = true →
      ∀ t ∈ (tarea_editar true none id (some "B") none estadoRaw none none none
          estadoConA).1.db.tareas,
        t.id = id → t.titulo = pyStrip ((some "B").getD "")) :=
  titulo_no_vacio_excepto_editar true none (some "B") none none none none
    estadoConA (by decide)

/-- Claim C2 counterexample: when no pool connection is available, the
attachment upload still writes the file to disk (the save happens before
`get_conn()`), so the upload directory gains a file while the database is
untouched — partial state. -/
theorem adjuntar_sin_conexion_contraejemplo :
    estadoConA.uploads = [] ∧
    (tarea_adjuntar false (fun s => s) ["png"] "uploads" none 1
        (some ("a.png", 3)) estadoConA).1.uploads = [("uploads/1_a.png", 3)] ∧
    (tarea_adjuntar false (fun s => s) ["png"] "uploads" none 1
        (some ("a.png", 3)) estadoConA).1.db = estadoConA.db := by
  refine ⟨rfl, by decide, by decide⟩

/-- Claim C2 (amended): when no pool connection is available every mutating
operation aborts and writes nothing to the database; the task
create/update/status-change/delete, comment, and attachment handlers abort
with the user-facing connection-error flash, while the tag add/remove
handlers silently redirect with no message; all of them leave the disk
untouched except the attachment upload, which saves the file to disk
before acquiring the connection, so a valid upload leaves the file in the
upload directory with no `adjuntos` row. -/
theorem sin_conexion_sin_escritura_bd (uid : Option Nat) (id tag_id : Nat)
    (tituloRaw descripcionRaw estadoRaw prioridadRaw vencRaw tagRaw contenidoRaw : Option String)
    (asignadaRaw : Option Nat) (estado : String)
    (sf : String → String) (allowedExt : List String) (uploadFolder : String)
    (file : Option (String × Nat)) (fname : String) (size : Nat) (st : AppState) :
    (tarea_nueva false uid tituloRaw descripcionRaw vencRaw prioridadRaw
        asignadaRaw st).1 = st ∧
    (tarea_editar false uid id tituloRaw descripcionRaw estadoRaw prioridadRaw
        vencRaw asignadaRaw st).1 = st ∧
    (tarea_cambiar_estado false uid id estado st).1 = st ∧
    (tarea_eliminar false uid id st).1 = st ∧
    (tarea_agregar_tag false uid id tagRaw st).1 = st ∧
    (tarea_quitar_tag false uid id tag_id st).1 = st ∧
    (tarea_comentar false uid id contenidoRaw st).1 = st ∧
    (tarea_adjuntar false sf allowedExt uploadFolder uid id file st).1.db = st.db ∧
    (fname ≠ "" → allowed_file allowedExt (sf fname) = true →
      (tarea_adjuntar false sf allowedExt uploadFolder uid id (some (fname, size)) st).1.uploads
        = saveFile (uploadFolder ++ "/" ++ toString id ++ "_" ++ sf fname) size st.uploads) ∧
    (pyStrip (tituloRaw.getD "") ≠ "" →
      (tarea_nueva false uid tituloRaw descripcionRaw vencRaw prioridadRaw
          asignadaRaw st).2 = ⟨[("Error de conexión", "error")], "index"⟩) ∧
    (estadoValido (Option.getD estadoRaw "pendiente") = true →
      (tarea_editar false uid id tituloRaw descripcionRaw estadoRaw prioridadRaw
          vencRaw asignadaRaw st).2 = ⟨[("Error de conexión", "error")], detalleUrl id⟩) ∧
    (estadoValido estado = true →
      (tarea_cambiar_estado false uid id estado st).2
        = ⟨[("Error de conexión", "error")], detalleUrl id⟩) ∧
    (tarea_eliminar false uid id st).2 = ⟨[("Error de conexión", "error")], "index"⟩ ∧
    (tarea_agregar_tag false uid id tagRaw st).2 = ⟨[], detalleUrl id⟩ ∧
    (tarea_quitar_tag false uid id tag_id st).2 = ⟨[], detalleUrl id⟩ ∧
    (pyStrip (contenidoRaw.getD "") ≠ "" →
      (tarea_comentar false uid id contenidoRaw st).2
        = ⟨[("Error de conexión", "error")], detalleUrl id⟩) ∧
    (fname ≠ "" → allowed_file allowedExt (sf fname) = true →
      (tarea_adjuntar false sf allowedExt uploadFolder uid id (some (fname, size)) st).2
        = ⟨[("Error de conexión", "error")], detalleUrl id⟩) := by
  refine ⟨?_, ?_, ?_, rfl, ?_, rfl, ?_, ?_, ?_, ?_, ?_, ?_, rfl, ?_, rfl, ?_, ?_⟩
  · simp only [tarea_nueva]
    split
    · rfl
    · rfl
  · simp only [tarea_editar]
    split
    · rfl
    · rfl
  · simp only [tarea_cambiar_estado]
    split
    · rfl
    · rfl
  · simp only [tarea_agregar_tag]
    split
    · rfl
    · rfl
  · simp only [tarea_comentar]
    split
    · rfl
    · rfl
  · rcases file with _ | ⟨fname2, size2⟩
    · rfl
    · simp only [tarea_adjuntar]
      split
      · rfl
      · split
        · rfl
        · rfl
  · intro h1 h2
    simp [tarea_adjuntar, beq_iff_eq, h1, h2]
  · intro h
    simp [tarea_nueva, beq_iff_eq, h]
  · intro hv
    simp [tarea_editar, hv]
  · intro hv
    simp [tarea_cambiar_estado, hv]
  · simp only [tarea_agregar_tag]
    split
    · rfl
    · rfl
  · intro h
    simp [tarea_comentar, beq_iff_eq, h]
  · intro h1 h2
    simp [tarea_adjuntar, beq_iff_eq, h1, h2]

/-- Claim C2 witness: the amended statement instantiated on the one-task
state, with a valid `a.png` upload exhibiting the on-disk leftover. -/
theorem sin_conexion_sin_escritura_bd_witness :
    (tarea_nueva false none (some "B") none none none none estadoConA).1 = estadoConA ∧
    (tarea_editar false none 1 (some "B") none (some "pendiente") none none none
        estadoConA).1 = estadoConA ∧
    (tarea_cambiar_estado false none 1 "completada" estadoConA).1 = estadoConA ∧
    (tarea_eliminar false none 1 estadoConA).1 = estadoConA ∧
    (tarea_agregar_tag false none 1 (some "x") estadoConA).1 = estadoConA ∧
    (tarea_quitar_tag false none 1 1 estadoConA).1 = estadoConA ∧
    (tarea_comentar false none 1 (some "hola") estadoConA).1 = estadoConA ∧
    (tarea_adjuntar false (fun s => s) ["png"] "uploads" none 1 none
        estadoConA).1.db = estadoConA.db ∧
    ("a.png" ≠ "" → allowed_file ["png"] ((fun s => s) "a.png") = true →
      (tarea_adjuntar false (fun s => s) ["png"] "uploads" none 1
          (some ("a.png", 3)) estadoConA).1.uploads
        = saveFile ("uploads" ++ "/" ++ toString 1 ++ "_" ++ (fun s => s) "a.png") 3
            estadoConA.uploads) ∧
    (pyStrip ((some "B").getD "") ≠ "" →
      (tarea_nueva false none (some "B") none none none none estadoConA).2
        = ⟨[("Error de conexión", "error")], "index"⟩) ∧
    (estadoValido (Option.getD (some "pendiente") "pendiente") = true →
      (tarea_editar false none 1 (some "B") none (some "pendiente") none none none
          estadoConA).2 = ⟨[("Error de conexión", "error")], detalleUrl 1⟩) ∧
    (estadoValido "completada" = true →
      (tarea_cambiar_estado false none 1 "completada" estadoConA).2
        = ⟨[("Error de conexión", "error")], detalleUrl 1⟩) ∧
    (tarea_eliminar false none 1 estadoConA).2
      = ⟨[("Error de conexión", "error")], "index"⟩ ∧
    (tarea_agregar_tag false none 1 (some "x") estadoConA).2 = ⟨[], detalleUrl 1⟩ ∧
    (tarea_quitar_tag false none 1 1 estadoConA).2 = ⟨[], detalleUrl 1⟩ ∧
    (pyStrip ((some "hola").getD "") ≠ "" →
      (tarea_comentar false none 1 (some "hola") estadoConA).2
        = ⟨[("Error de conexión", "error")], detalleUrl 1⟩) ∧
    ("a.png" ≠ "" → allowed_file ["png"] ((fun s => s) "a.png") = true →
      (tarea_adjuntar false (fun s => s) ["png"] "uploads" none 1
          (some ("a.png", 3)) estadoConA).2
        = ⟨[("Error de conexión", "error")], detalleUrl 1⟩) :=
  sin_conexion_sin_escritura_bd none 1 1 (some "B") none (some "pendiente") none
    none (some "x") (some "hola") none "completada" (fun s => s) ["png"] "uploads"
    none "a.png" 3 estadoConA

/-- In a duplicate-free link table, a present link row occurs exactly once. -/
theorem count_de_nodup_mem (l : List (Nat × Nat)) (p : Nat × Nat)
    (hN : l.Nodup) (hm : p ∈ l) : l.count p = 1 := by
  induction l with
  | nil => cases hm
  | cons a as ih =>
    rcases List.mem_cons.mp hm with h | hm2
    · subst h
      rw [List.count_cons_self,
        List.count_eq_zero_of_not_mem (List.nodup_cons.mp hN).1]
    · have hne : p ≠ a := by
        intro h
        exact (List.nodup_cons.mp hN).1 (by rw [← h]; exact hm2)
      rw [List.count_cons_of_ne hne]
      exact ih (List.nodup_cons.mp hN).2 hm2

/-- Characterization of `tarea_agregar_tag` when the normalized name has no
tag yet and the task exists: the tag is created with the next id and linked
to the task. -/
theorem agregar_tag_crea (uid : Option Nat) (id : Nat) (tagRaw : Option String)
    (S : AppState)
    (hn : (pyLower (pyStrip (tagRaw.getD "")) == "") = false)
    (hfind : S.db.tags.find?
        (fun x => x.nombre == pyLower (pyStrip (tagRaw.getD ""))) = none)
    (hex : S.db.tareas.any (fun t => t.id == id) = true)
    (hnot : (id, S.db.nextTagId) ∉ S.db.tarea_tags) :
    (tarea_agregar_tag true uid id tagRaw S).1.db.tags
      = S.db.tags ++ [⟨S.db.nextTagId, pyLower (pyStrip (tagRaw.getD ""))⟩] ∧
    (tarea_agregar_tag true uid id tagRaw S).1.db.tarea_tags
      = S.db.tarea_tags ++ [(id, S.db.nextTagId)] := by
  constructor <;> simp [tarea_agregar_tag, hn, hfind, hex, hnot, audit]

/-- Characterization of `tarea_agregar_tag` when the tag exists, the task
exists, and they are not yet linked: the tag table is unchanged and the
link row is appended. -/
theorem agregar_tag_enlaza (uid : Option Nat) (id : Nat) (tagRaw : Option String)
    (S : AppState) (tg : Etiqueta)
    (hn : (pyLower (pyStrip (tagRaw.getD "")) == "") = false)
    (hfind : S.db.tags.find?
        (fun x => x.nombre == pyLower (pyStrip (tagRaw.getD ""))) = some tg)
    (hex : S.db.tareas.any (fun t => t.id == id) = true)
    (hnot : (id, tg.id) ∉ S.db.tarea_tags) :
    (tarea_agregar_tag true uid id tagRaw S).1.db.tags = S.db.tags ∧
    (tarea_agregar_tag true uid id tagRaw S).1.db.tarea_tags
      = S.db.tarea_tags ++ [(id, tg.id)] := by
  constructor <;> simp [tarea_agregar_tag, hn, hfind, hex, hnot, audit]

/-- Characterization of `tarea_agregar_tag` when the tag exists and is
already linked: the duplicate link is silently skipped (`INSERT IGNORE`)
and both tables are unchanged. -/
theorem agregar_tag_ya_enlazado (uid : Option Nat) (id : Nat) (tagRaw : Option String)
    (S : AppState) (tg : Etiqueta)
    (hn : (pyLower (pyStrip (tagRaw.getD "")) == "") = false)
    (hfind : S.db.tags.find?
        (fun x => x.nombre == pyLower (pyStrip (tagRaw.getD ""))) = some tg)
    (hmem : (id, tg.id) ∈ S.db.tarea_tags) :
    (tarea_agregar_tag true uid id tagRaw S).1.db.tags = S.db.tags ∧
    (tarea_agregar_tag true uid id tagRaw S).1.db.tarea_tags = S.db.tarea_tags := by
  constructor <;> simp [tarea_agregar_tag, hn, hfind, hmem, audit]

/-- Claim C4: `tarea_agregar_tag` normalizes the submitted name (strip then
lowercase), finds or creates the tag with that name, and links it to the
task; applying it twice with the same name leaves the link table of the
first application unchanged and exactly one link row for that task/tag
pair, with no error.  The hypotheses state that the task exists (the
`tarea_id` foreign key would otherwise make `INSERT IGNORE` skip the link)
and the table invariants: the link table is a set (its composite primary
key) and link tag-ids predate the auto-increment counter. -/
theorem agregar_tag_idempotente (uid : Option Nat) (id : Nat) (tagRaw : Option String)
    (st : AppState)
    (hn : pyLower (pyStrip (tagRaw.getD "")) ≠ "")
    (hTarea : st.db.tareas.any (fun t => t.id == id) = true)
    (hNodup : st.db.tarea_tags.Nodup)
    (hFresh : ∀ p ∈ st.db.tarea_tags, p.2 < st.db.nextTagId) :
    ∃ tg : Etiqueta,
      tg.nombre = pyLower (pyStrip (tagRaw.getD "")) ∧
      (tarea_agregar_tag true uid id tagRaw st).1.db.tags.find?
          (fun x => x.nombre == pyLower (pyStrip (tagRaw.getD ""))) = some tg ∧
      (tarea_agregar_tag true uid id tagRaw
          (tarea_agregar_tag true uid id tagRaw st).1).1.db.tarea_tags
        = (tarea_agregar_tag true uid id tagRaw st).1.db.tarea_tags ∧
      (tarea_agregar_tag true uid id tagRaw
          (tarea_agregar_tag true uid id tagRaw st).1).1.db.tarea_tags.count
          (id, tg.id) = 1 := by
  have hbeq : (pyLower (pyStrip (tagRaw.getD "")) == "") = false :=
    beq_eq_false_iff_ne.mpr hn
  rcases hfind : st.db.tags.find?
      (fun x => x.nombre == pyLower (pyStrip (tagRaw.getD ""))) with _ | tg
  · -- the tag does not exist yet: it is created and linked
    have hnotmem : (id, st.db.nextTagId) ∉ st.db.tarea_tags := fun hm =>
      absurd (hFresh _ hm) (lt_irrefl _)
    obtain ⟨h1tags, h1links⟩ := agregar_tag_crea uid id tagRaw st hbeq hfind hTarea hnotmem
    have h2find : (tarea_agregar_tag true uid id tagRaw st).1.db.tags.find?
        (fun x => x.nombre == pyLower (pyStrip (tagRaw.getD "")))
        = some ⟨st.db.nextTagId, pyLower (pyStrip (tagRaw.getD ""))⟩ := by
      rw [h1tags, List.find?_append, hfind]
      simp
    have h2mem : (id, st.db.nextTagId)
        ∈ (tarea_agregar_tag true uid id tagRaw st).1.db.tarea_tags := by
      rw [h1links]
      simp
    obtain ⟨-, h2links⟩ := agregar_tag_ya_enlazado uid id tagRaw
      (tarea_agregar_tag true uid id tagRaw st).1
      ⟨st.db.nextTagId, pyLower (pyStrip (tagRaw.getD ""))⟩ hbeq h2find h2mem
    have hcount : ((tarea_agregar_tag true uid id tagRaw st).1.db.tarea_tags).count
        (id, st.db.nextTagId) = 1 := by
      rw [h1links, List.count_append, List.count_eq_zero_of_not_mem hnotmem]
      simp
    refine ⟨⟨st.db.nextTagId, pyLower (pyStrip (tagRaw.getD ""))⟩, rfl, h2find,
      h2links, ?_⟩
    rw [h2links]
    exact hcount
  · -- the tag already exists: it is linked if not already linked
    have hnom : tg.nombre = pyLower (pyStrip (tagRaw.getD "")) := by
      simpa using List.find?_some hfind
    by_cases hc : (id, tg.id) ∈ st.db.tarea_tags
    · obtain ⟨h1tags, h1links⟩ := agregar_tag_ya_enlazado uid id tagRaw st tg
        hbeq hfind hc
      have h2find : (tarea_agregar_tag true uid id tagRaw st).1.db.tags.find?
          (fun x => x.nombre == pyLower (pyStrip (tagRaw.getD ""))) = some tg := by
        rw [h1tags]
        exact hfind
      have h2mem : (id, tg.id)
          ∈ (tarea_agregar_tag true uid id tagRaw st).1.db.tarea_tags := by
        rw [h1links]
        exact hc
      obtain ⟨-, h2links⟩ := agregar_tag_ya_enlazado uid id tagRaw
        (tarea_agregar_tag true uid id tagRaw st).1 tg hbeq h2find h2mem
      have hcount : ((tarea_agregar_tag true uid id tagRaw st).1.db.tarea_tags).count
          (id, tg.id) = 1 := by
        rw [h1links]
        exact count_de_nodup_mem _ _ hNodup hc
      refine ⟨tg, hnom, h2find, h2links, ?_⟩
      rw [h2links]
      exact hcount
    · obtain ⟨h1tags, h1links⟩ := agregar_tag_enlaza uid id tagRaw st tg
        hbeq hfind hTarea hc
      have h2find : (tarea_agregar_tag true uid id tagRaw st).1.db.tags.find?
          (fun x => x.nombre == pyLower (pyStrip (tagRaw.getD ""))) = some tg := by
        rw [h1tags]
        exact hfind
      have h2mem : (id, tg.id)
          ∈ (tarea_agregar_tag true uid id tagRaw st).1.db.tarea_tags := by
        rw [h1links]
        simp
      obtain ⟨-, h2links⟩ := agregar_tag_ya_enlazado uid id tagRaw
        (tarea_agregar_tag true uid id tagRaw st).1 tg hbeq h2find h2mem
      have hcount : ((tarea_agregar_tag true uid id tagRaw st).1.db.tarea_tags).count
          (id, tg.id) = 1 := by
        rw [h1links, List.count_append, List.count_eq_zero_of_not_mem hc]
        simp
      refine ⟨tg, hnom, h2find, h2links, ?_⟩
      rw [h2links]
      exact hcount

/-- Claim C4 witness: adding " Urgente " twice to the existing task 1 of
the one-task state creates the tag "urgente" once and leaves exactly one
link row. -/
theorem agregar_tag_idempotente_witness :
    ∃ tg : Etiqueta,
      tg.nombre = pyLower (pyStrip ((some " Urgente ").getD "")) ∧
      (tarea_agregar_tag true none 1 (some " Urgente ") estadoConA).1.db.tags.find?
          (fun x => x.nombre == pyLower (pyStrip ((some " Urgente ").getD ""))) = some tg ∧
      (tarea_agregar_tag true none 1 (some " Urgente ")
          (tarea_agregar_tag true none 1 (some " Urgente ") estadoConA).1).1.db.tarea_tags
        = (tarea_agregar_tag true none 1 (some " Urgente ") estadoConA).1.db.tarea_tags ∧
      (tarea_agregar_tag true none 1 (some " Urgente ")
          (tarea_agregar_tag true none 1 (some " Urgente ") estadoConA).1).1.db.tarea_tags.count
          (1, tg.id) = 1 :=
  agregar_tag_idempotente none 1 (some " Urgente ") estadoConA
    (by decide) (by decide) (by decide) (by decide)

/-- Claim C5: an upload with a missing or empty filename, or whose
(sanitized) filename fails the configurable case-insensitive extension
allow-list, is rejected before any effect: the returned state is exactly
the input state, so no `adjuntos` row is inserted and no file is written
to the upload directory. -/
theorem adjuntar_rechazo_sin_efecto (connOk : Bool) (sf : String → String)
    (allowedExt : List String) (uploadFolder : String) (uid : Option Nat)
    (id : Nat) (fname : String) (size : Nat) (st : AppState)
    (h : fname = "" ∨ allowed_file allowedExt (sf fname) = false) :
    (tarea_adjuntar connOk sf allowedExt uploadFolder uid id none st).1 = st ∧
    (tarea_adjuntar connOk sf allowedExt uploadFolder uid id
        (some (fname, size)) st).1 = st := by
  refine ⟨rfl, ?_⟩
  rcases h with h | h
  · simp [tarea_adjuntar, h]
  · simp only [tarea_adjuntar]
    split
    · rfl
    · simp [h]

/-- Claim C5 witness: uploading `malware.exe` against the allow-list
`png,jpg,pdf` is rejected with no attachment row and no file written. -/
theorem adjuntar_rechazo_sin_efecto_witness :
    (tarea_adjuntar true (fun s => s) ["png", "jpg", "pdf"] "uploads" none 1
        none estadoConA).1 = estadoConA ∧
    (tarea_adjuntar true (fun s => s) ["png", "jpg", "pdf"] "uploads" none 1
        (some ("malware.exe", 9)) estadoConA).1 = estadoConA :=
  adjuntar_rechazo_sin_efecto true (fun s => s) ["png", "jpg", "pdf"] "uploads"
    none 1 "malware.exe" 9 estadoConA (Or.inr (by decide))

/-- Claim C6: the REST listing answers 401 exactly when an API key is
configured and the `X-API-Key` header is absent or different; whenever the
gate passes (matching header, or no key configured) the response is a 200
JSON array. -/
theorem api_clave_autenticacion (apiKey : String) (header : Option String)
    (connOk : Bool) (qArg estadoArg prioridadArg : String) (page perPage : Int)
    (db : DB) :
    (api_auth_ok apiKey header = false ↔ apiKey ≠ "" ∧ header ≠ some apiKey) ∧
    (api_auth_ok apiKey header = false →
      (api_tareas apiKey header connOk qArg estadoArg prioridadArg page perPage db).status
        = 401) ∧
    (api_auth_ok apiKey header = true →
      ∃ rows,
        api_tareas apiKey header connOk qArg estadoArg prioridadArg page perPage db
          = ApiResp.jsonArr rows ∧
        (api_tareas apiKey header connOk qArg estadoArg prioridadArg page perPage db).status
          = 200) := by
  refine ⟨?_, ?_, ?_⟩
  · cases header with
    | none => simp [api_auth_ok]
    | some h => simp [api_auth_ok]
  · intro h
    simp [api_tareas, h, ApiResp.status]
  · intro h
    simp only [api_tareas, h, Bool.not_true, Bool.false_eq_true, if_false]
    split
    · exact ⟨[], rfl, rfl⟩
    · exact ⟨_, rfl, rfl⟩

/-- Claim C6 witness: with key "k" configured, a missing header gets 401
and the matching header gets a 200 JSON array, on a concrete database. -/
theorem api_clave_autenticacion_witness :
    (api_tareas "k" none true "" "" "" 1 12 estadoConA.db).status = 401 ∧
    (api_tareas "k" (some "k") true "" "" "" 1 12 estadoConA.db).status = 200 := by
  constructor
  · exact (api_clave_autenticacion "k" none true "" "" "" 1 12 estadoConA.db).2.1
      (by decide)
  · obtain ⟨rows, -, h200⟩ :=
      (api_clave_autenticacion "k" (some "k") true "" "" "" 1 12 estadoConA.db).2.2
        (by decide)
    exact h200

/-- Inserting into the sorted list adds exactly one element. -/
theorem length_insertDesc (t : Tarea) (l : List Tarea) :
    (insertDesc t l).length = l.length + 1 := by
  induction l with
  | nil => rfl
  | cons u us ih =>
    simp only [insertDesc]
    split
    · simp
    · simp [ih]

/-- The insertion sort used for `ORDER BY fecha_creacion DESC` preserves
length. -/
theorem length_ordenarDesc (l : List Tarea) :
    (ordenarDesc l).length = l.length := by
  induction l with
  | nil => rfl
  | cons t ts ih =>
    have h : ordenarDesc (t :: ts) = insertDesc t (ordenarDesc ts) := rfl
    rw [h, length_insertDesc, ih, List.length_cons]

/-- Claim C7: the effective page is the requested page clamped to
[1, 10000], the effective page size is the requested per_page clamped to
[5, 100], the offset is (page-1)*per_page, the reported total is the
number of tasks matching the filters, the returned page holds
min(per_page, total - offset) tasks, and a page beyond the last yields an
empty task list without error. -/
theorem paginacion_correcta (page perPage : Int) (estadoArg qArg prioridadArg : String)
    (asignadaArg : Option Nat) (st : AppState) :
    1 ≤ clamp page 1 10000 ∧ clamp page 1 10000 ≤ 10000 ∧
    5 ≤ clamp perPage 5 100 ∧ clamp perPage 5 100 ≤ 100 ∧
    paginate_params page perPage
      = (clamp page 1 10000, clamp perPage 5 100,
         (clamp page 1 10000 - 1) * clamp perPage 5 100) ∧
    (index true estadoArg qArg prioridadArg asignadaArg page perPage st).page
      = clamp page 1 10000 ∧
    (index true estadoArg qArg prioridadArg asignadaArg page perPage st).per_page
      = clamp perPage 5 100 ∧
    (index true estadoArg qArg prioridadArg asignadaArg page perPage st).total
      = (st.db.tareas.filter (matchesFiltros estadoArg prioridadArg asignadaArg qArg)).length ∧
    (index true estadoArg qArg prioridadArg asignadaArg page perPage st).tareas.length
      = min (clamp perPage 5 100).toNat
          ((st.db.tareas.filter (matchesFiltros estadoArg prioridadArg asignadaArg qArg)).length
            - ((clamp page 1 10000 - 1) * clamp perPage 5 100).toNat) ∧
    ((st.db.tareas.filter (matchesFiltros estadoArg prioridadArg asignadaArg qArg)).length
        ≤ ((clamp page 1 10000 - 1) * clamp perPage 5 100).toNat →
      (index true estadoArg qArg prioridadArg asignadaArg page perPage st).tareas = []) := by
  refine ⟨le_max_left 1 _, max_le (by norm_num) (min_le_left _ _),
    le_max_left 5 _, max_le (by norm_num) (min_le_left _ _), rfl, rfl, rfl, rfl, ?_, ?_⟩
  · show (((ordenarDesc _).drop _).take _).length = _
    rw [List.length_take, List.length_drop, length_ordenarDesc,
      show (paginate_params page perPage).2.1 = clamp perPage 5 100 from rfl,
      show (paginate_params page perPage).2.2
        = (clamp page 1 10000 - 1) * clamp perPage 5 100 from rfl]
  · intro h
    have h2 : (ordenarDesc (st.db.tareas.filter
          (matchesFiltros estadoArg prioridadArg asignadaArg qArg))).length
        ≤ ((clamp page 1 10000 - 1) * clamp perPage 5 100).toNat := by
      rw [length_ordenarDesc]
      exact h
    show ((ordenarDesc _).drop _).take _ = _
    rw [show (paginate_params page perPage).2.2
        = (clamp page 1 10000 - 1) * clamp perPage 5 100 from rfl,
      List.drop_eq_nil_of_le h2, List.take_nil]

/-- Claim C7 witness: over twelve stored tasks, page 1 with page size 5
reports total 12 and returns 5 tasks, and page 4 (offset 15, beyond the
last task) returns the empty list. -/
theorem paginacion_correcta_witness :
    (index true "" "" "" none 1 5 estadoDoce).total = 12 ∧
    (index true "" "" "" none 1 5 estadoDoce).tareas.length = 5 ∧
    (index true "" "" "" none 4 5 estadoDoce).tareas = [] := by
  refine ⟨?_, ?_, ?_⟩
  · rw [(paginacion_correcta 1 5 "" "" "" none estadoDoce).2.2.2.2.2.2.2.1]
    decide
  · rw [(paginacion_correcta 1 5 "" "" "" none estadoDoce).2.2.2.2.2.2.2.2.1]
    decide
  · exact (paginacion_correcta 4 5 "" "" "" none estadoDoce).2.2.2.2.2.2.2.2.2 (by decide)

/-- Inserting a strictly older task below a newer head keeps the head. -/
theorem insertDesc_lt (u t : Tarea) (s : List Tarea)
    (h : u.fecha_creacion < t.fecha_creacion) :
    insertDesc u (t :: s) = t :: insertDesc u s := by
  simp only [insertDesc]
  rw [if_neg (Nat.not_le.mpr h)]

/-- Re-sorting around a task strictly newer than every element of `l`
keeps that task at the head. -/
theorem foldr_insertDesc_nuevo (t : Tarea) :
    ∀ (l s : List Tarea), (∀ u ∈ l, u.fecha_creacion < t.fecha_creacion) →
      ∃ s2, l.foldr insertDesc (t :: s) = t :: s2 := by
  intro l
  induction l with
  | nil => exact fun s _ => ⟨s, rfl⟩
  | cons u us ih =>
    intro s h
    obtain ⟨s2, hs2⟩ := ih s (fun v hv => h v (List.mem_cons_of_mem u hv))
    refine ⟨insertDesc u s2, ?_⟩
    calc (u :: us).foldr insertDesc (t :: s)
        = insertDesc u (us.foldr insertDesc (t :: s)) := rfl
      _ = insertDesc u (t :: s2) := by rw [hs2]
      _ = t :: insertDesc u s2 := insertDesc_lt u t s2 (h u (List.mem_cons_self u us))

/-- Appending a strictly newest task and sorting places it at the head. -/
theorem ordenarDesc_append_nuevo (t : Tarea) (l : List Tarea)
    (h : ∀ u ∈ l, u.fecha_creacion < t.fecha_creacion) :
    ∃ s2, ordenarDesc (l ++ [t]) = t :: s2 := by
  have h1 : ordenarDesc (l ++ [t]) = l.foldr insertDesc (t :: []) := by
    show (l ++ [t]).foldr insertDesc [] = l.foldr insertDesc (t :: [])
    rw [List.foldr_append]
    rfl
  obtain ⟨s2, hs2⟩ := foldr_insertDesc_nuevo t l [] h
  exact ⟨s2, h1.trans hs2⟩

/-- Claim C8: creating a task with only a non-empty title yields a stored
task with status `pendiente` and priority `media`, and the default listing
(no filters, ordered by creation time descending) shows it at the head. -/
theorem crear_defaults_y_cabeza (uid : Option Nat) (titulo : String) (st : AppState)
    (hT : pyStrip titulo ≠ "")
    (hInv : ∀ u ∈ st.db.tareas, u.fecha_creacion < st.db.clock) :
    ∃ rest,
      (index true "" "" "" none 1 12
          (tarea_nueva true uid (some titulo) none none none none st).1).tareas
        = ({ id := st.db.nextTareaId, titulo := pyStrip titulo, descripcion := none,
             estado := "pendiente", prioridad := "media",
             fecha_creacion := st.db.clock, fecha_vencimiento := none,
             creada_por := uid, asignada_a := none } : Tarea) :: rest := by
  have hbeq : (pyStrip titulo == "") = false := beq_eq_false_iff_ne.mpr hT
  have hvac : pyStrip "" = "" := rfl
  have hst : (tarea_nueva true uid (some titulo) none none none none st).1.db.tareas
      = st.db.tareas ++
        [{ id := st.db.nextTareaId, titulo := pyStrip titulo, descripcion := none,
           estado := "pendiente", prioridad := "media",
           fecha_creacion := st.db.clock, fecha_vencimiento := none,
           creada_por := uid, asignada_a := none }] := by
    simp [tarea_nueva, hbeq, audit, hvac]
  have hfiltro : ∀ x : Tarea, matchesFiltros "" "" none "" x = true := by
    intro x
    simp [matchesFiltros]
  obtain ⟨s2, hs2⟩ := ordenarDesc_append_nuevo
    ({ id := st.db.nextTareaId, titulo := pyStrip titulo, descripcion := none,
       estado := "pendiente", prioridad := "media",
       fecha_creacion := st.db.clock, fecha_vencimiento := none,
       creada_por := uid, asignada_a := none } : Tarea)
    st.db.tareas (fun u hu => hInv u hu)
  refine ⟨s2.take 11, ?_⟩
  show ((ordenarDesc (((tarea_nueva true uid (some titulo) none none none none
      st).1.db.tareas).filter (matchesFiltros "" "" none ""))).drop
        ((paginate_params 1 12).2.2.toNat)).take ((paginate_params 1 12).2.1.toNat)
      = _
  rw [hst, List.filter_eq_self.mpr (fun a _ => hfiltro a),
    show (paginate_params 1 12).2.2.toNat = 0 from rfl,
    show (paginate_params 1 12).2.1.toNat = 12 from rfl,
    List.drop_zero, hs2]
  rfl

/-- Claim C8 witness: creating "Buy milk" in the freshly bootstrapped state
puts the pending/medium task at the head of the default listing. -/
theorem crear_defaults_y_cabeza_witness :
    ∃ rest,
      (index true "" "" "" none 1 12
          (tarea_nueva true none (some "Buy milk") none none none none estadoVacio).1).tareas
        = ({ id := 1, titulo := pyStrip "Buy milk", descripcion := none,
             estado := "pendiente", prioridad := "media", fecha_creacion := 0,
             fecha_vencimiento := none, creada_por := none,
             asignada_a := none } : Tarea) :: rest :=
  crear_defaults_y_cabeza none "Buy milk" estadoVacio (by decide) (by decide)

/-- Claim C9: a login attempt with an email matching no active user and a
login attempt with an existing user's email but a wrong password produce
the exact same observable response — the invalid-credentials flash and the
redirect to the login page — so the outcome does not reveal whether the
email exists. -/
theorem login_indistinguible (checkHash : String → String → Bool) (db : DB)
    (email1 pwd1 email2 pwd2 : String) (nxt1 nxt2 : Option String) (u : Usuario)
    (h1 : db.usuarios.find? (fun v => v.email == pyLower (pyStrip email1) && v.activo)
        = none)
    (h2 : db.usuarios.find? (fun v => v.email == pyLower (pyStrip email2) && v.activo)
        = some u)
    (h3 : checkHash u.password_hash pwd2 = false) :
    login checkHash true db email1 pwd1 nxt1 = invalidLoginResp ∧
    login checkHash true db email2 pwd2 nxt2 = invalidLoginResp ∧
    login checkHash true db email1 pwd1 nxt1 = login checkHash true db email2 pwd2 nxt2 := by
  refine ⟨?_, ?_, ?_⟩
  · simp [login, h1]
  · simp [login, h2, h3]
  · simp [login, h1, h2, h3]

/-- Claim C9 witness: against a database holding only the admin account,
an unknown email and the admin email with a wrong password receive the
identical invalid-credentials response. -/
theorem login_indistinguible_witness :
    login (fun h p => h == p) true dbConAdmin "nobody@example.com" "x" none
      = invalidLoginResp ∧
    login (fun h p => h == p) true dbConAdmin "admin@example.com" "wrong" (some "panel")
      = invalidLoginResp ∧
    login (fun h p => h == p) true dbConAdmin "nobody@example.com" "x" none
      = login (fun h p => h == p) true dbConAdmin "admin@example.com" "wrong" (some "panel") :=
  login_indistinguible (fun h p => h == p) dbConAdmin "nobody@example.com" "x"
    "admin@example.com" "wrong" none (some "panel") usuarioAdmin
    (by decide) (by decide) (by decide)

/-- Claim C10: when the REST listing cannot obtain a pool connection it
returns HTTP 200 with an empty JSON array — the same response as a
successful query over a database with no tasks — rather than an error. -/
theorem api_sin_conexion_lista_vacia (apiKey : String) (header : Option String)
    (qArg estadoArg prioridadArg : String) (page perPage : Int) (db1 db2 : DB)
    (hauth : api_auth_ok apiKey header = true) (hdb : db2.tareas = []) :
    api_tareas apiKey header false qArg estadoArg prioridadArg page perPage db1
      = ApiResp.jsonArr [] ∧
    api_tareas apiKey header true qArg estadoArg prioridadArg page perPage db2
      = ApiResp.jsonArr [] ∧
    (api_tareas apiKey header false qArg estadoArg prioridadArg page perPage db1).status
      = 200 := by
  refine ⟨?_, ?_, ?_⟩
  · simp [api_tareas, hauth]
  · simp [api_tareas, hauth, hdb, ordenarDesc]
  · simp [api_tareas, hauth, ApiResp.status]

/-- Claim C10 witness: with no key configured, the listing under a failed
connection and the listing over an empty task table both answer the 200
empty JSON array. -/
theorem api_sin_conexion_lista_vacia_witness :
    api_tareas "" none false "" "" "" 1 12 estadoConA.db = ApiResp.jsonArr [] ∧
    api_tareas "" none true "" "" "" 1 12 estadoVacio.db = ApiResp.jsonArr [] ∧
    (api_tareas "" none false "" "" "" 1 12 estadoConA.db).status = 200 :=
  api_sin_conexion_lista_vacia "" none "" "" "" 1 12 estadoConA.db estadoVacio.db
    (by decide) (by decide)

end TareasApp
